import Mathlib

/-!
Verification of the PDF-generation core of the `orcamentotransplas` repository.

The development shallowly embeds, in Lean, the pure computational content of
`gerador_funcoes.py` (the two HTML sanitizers and the control flow of
`criar_pdf_em_memoria`) and of `app.py` (the totals computation and the
logo/watermark asset resolver).  The regex substitutions of the sanitizers
are embedded as explicit left-to-right scanning functions that reproduce
Python `re.sub` semantics for the concrete patterns appearing in the source
(leftmost match, non-overlapping continuation, greedy/lazy quantifiers as
written, IGNORECASE literals, word boundaries against the original string).
-/

set_option maxRecDepth 20000

namespace Orcamento

/-! ### Character classes (Python `re` semantics, ASCII fragment) -/

/-- Double-quote character. -/
def dq : Char := Char.ofNat 34

/-- Single-quote character. -/
def sq : Char := Char.ofNat 39

/-- Python regex whitespace class for this corpus: space, tab, LF, CR, VT, FF. -/
def isWs (c : Char) : Bool :=
  c = ' ' || c = Char.ofNat 9 || c = Char.ofNat 10 || c = Char.ofNat 13 ||
  c = Char.ofNat 11 || c = Char.ofNat 12

/-- Python regex word character, used by the word boundary in
`_STYLE_DIM_RE_INTERNAL`. -/
def isWordChar (c : Char) : Bool := c.isAlpha || c.isDigit || c = '_'

/-- Case-insensitive character comparison (the `re.IGNORECASE` flag). -/
def lcEq (a b : Char) : Bool := a.toLower = b.toLower

/-- Match a literal case-insensitively at the head of the input; return the
rest of the input on success. -/
def litIC : List Char → List Char → Option (List Char)
  | [], s => some s
  | _ :: _, [] => none
  | p :: ps, c :: cs => if lcEq c p then litIC ps cs else none

/-- Scan to the next occurrence of the quote character `q`; return the
content before it and the rest after it (the regex idiom `[^q]*q`). -/
def scanToQuote (q : Char) : List Char → Option (List Char × List Char)
  | [] => none
  | c :: cs =>
    if c = q then some ([], cs)
    else
      match scanToQuote q cs with
      | some (content, rest) => some (c :: content, rest)
      | none => none

/-! ### The `re.sub` driver

A matcher receives the character preceding the current position in the
original string (for word boundaries) and the remaining input; on success it
returns the replacement text and the rest of the original input after the
match.  `subst` scans left to right, replacing non-overlapping matches, as
`re.sub` does for the never-empty patterns used in the source. -/

def substAux (m : Option Char → List Char → Option (List Char × List Char)) :
    Nat → Option Char → List Char → List Char
  | 0, _, s => s
  | _ + 1, _, [] => []
  | fuel + 1, prev, c :: cs =>
    match m prev (c :: cs) with
    | some (rep, rest) =>
      if rest.length < cs.length + 1 then
        let consumed := (c :: cs).take (cs.length + 1 - rest.length)
        rep ++ substAux m fuel consumed.getLast? rest
      else c :: substAux m fuel (some c) cs
    | none => c :: substAux m fuel (some c) cs

def subst (m : Option Char → List Char → Option (List Char × List Char))
    (s : List Char) : List Char :=
  substAux m s.length none s

/-! ### Matchers, one per regex of `gerador_funcoes.py` -/

/-- `_ATTR_DIM_RE`: an alternation of
a whitespace run, `height` or `width` (IGNORECASE), `=` with optional
surrounding whitespace, and a double- or single-quoted value.  Substituted
by the empty string. -/
def matchAttrDim (_ : Option Char) (s : List Char) :
    Option (List Char × List Char) :=
  let s1 := s.dropWhile isWs
  match (litIC "height".data s1).orElse (fun _ => litIC "width".data s1) with
  | none => none
  | some t =>
    match t.dropWhile isWs with
    | e :: t2 =>
      if e = '=' then
        match t2.dropWhile isWs with
        | q :: t4 =>
          if q = dq || q = sq then
            match scanToQuote q t4 with
            | some (_, rest) => some ([], rest)
            | none => none
          else none
        | [] => none
      else none
    | [] => none

/-- `_STYLE_DIM_RE_INTERNAL`: a word boundary, `height` or `width`
(IGNORECASE), `:` with optional preceding whitespace, then at least one
character other than `;` and `"` (with the `\s*` prefix absorbed into that
run, as backtracking makes the two quantifiers jointly consume the full
run), then an optional `;`.  Substituted by the empty string. -/
def matchStyleDim (prev : Option Char) (s : List Char) :
    Option (List Char × List Char) :=
  let boundary := match prev with | none => true | some p => !isWordChar p
  if boundary then
    match (litIC "height".data s).orElse (fun _ => litIC "width".data s) with
    | none => none
    | some t =>
      match t.dropWhile isWs with
      | e :: t2 =>
        if e = ':' then
          let content := t2.takeWhile (fun ch => !(ch = ';' || ch = dq))
          if content.isEmpty then none
          else
            match t2.drop content.length with
            | c2 :: r2 => if c2 = ';' then some ([], r2) else some ([], c2 :: r2)
            | [] => some ([], [])
        else none
      | [] => none
  else none

/-- The inline `re.sub` pattern collapsing `;` `\s*` `;` to a single `;`
inside a style attribute value. -/
def matchSemiSemi (_ : Option Char) (s : List Char) :
    Option (List Char × List Char) :=
  match s with
  | c :: cs =>
    if c = ';' then
      match cs.dropWhile isWs with
      | c2 :: r => if c2 = ';' then some ([';'], r) else none
      | [] => none
    else none
  | [] => none

/-- The inline `re.sub` pattern collapsing a run of two or more whitespace
characters to a single space. -/
def matchWs2 (_ : Option Char) (s : List Char) :
    Option (List Char × List Char) :=
  let run := s.takeWhile isWs
  if 2 ≤ run.length then some ([' '], s.drop run.length) else none

/-- Python `str.strip()` on the whitespace class. -/
def pyStrip (s : List Char) : List Char :=
  ((s.dropWhile isWs).reverse.dropWhile isWs).reverse

/-- The body of `_strip_style_dims`: strip the dimension declarations from a
style attribute value, collapse doubled semicolons, collapse whitespace runs
and strip the ends. -/
def sanitizeStyleContent (content : List Char) : List Char :=
  let c1 := subst matchStyleDim content
  let c2 := subst matchSemiSemi c1
  let c3 := subst matchWs2 c2
  pyStrip c3

/-- Tail of `_STYLE_ATTR_RE_GENERIC` after the lazy group: one whitespace
character, `style` (IGNORECASE), `=` with optional surrounding whitespace,
then the `q`-quoted value; returns the value and the rest after the closing
quote. -/
def tryStyleTail (q : Char) (s : List Char) : Option (List Char × List Char) :=
  match s with
  | c :: cs =>
    if isWs c then
      match litIC "style".data cs with
      | none => none
      | some t =>
        match t.dropWhile isWs with
        | e :: t2 =>
          if e = '=' then
            match t2.dropWhile isWs with
            | qc :: t4 => if qc = q then scanToQuote q t4 else none
            | [] => none
          else none
        | [] => none
    else none
  | [] => none

/-- The lazy `[^>]*?` group of `_STYLE_ATTR_RE_GENERIC`: extend the matched
prefix one non-`>` character at a time, at each point first trying the rest
of the pattern; on success build the replacement string of
`_strip_style_dims`. -/
def lazyStyleScan (q : Char) (acc : List Char) : List Char → Option (List Char × List Char)
  | [] => none
  | c :: cs =>
    match tryStyleTail q (c :: cs) with
    | some (content, rest) =>
      some (acc ++ [' '] ++ "style=".data ++ [q] ++ sanitizeStyleContent content ++ [q],
            rest)
    | none => if c = '>' then none else lazyStyleScan q (acc ++ [c]) cs

/-- `_STYLE_ATTR_RE_GENERIC` (for `q = dq`) and
`_STYLE_ATTR_RE_GENERIC_SINGLE` (for `q = sq`), substituted through
`_strip_style_dims`. -/
def matchStyleAttrGeneric (q : Char) (_ : Option Char) (s : List Char) :
    Option (List Char × List Char) :=
  match s with
  | c :: cs => if c = '<' then lazyStyleScan q [c] cs else none
  | [] => none

/-- Tail of `_STYLE_ATTR_RE` after the lazy group: one whitespace character,
`style` (IGNORECASE), `=` with optional surrounding whitespace, the
`q`-quoted value, then the second capture group `[^>]*>`; returns that
second group (kept by the `\1\2` replacement) and the rest. -/
def tryTableTail (q : Char) (s : List Char) : Option (List Char × List Char) :=
  match s with
  | c :: cs =>
    if isWs c then
      match litIC "style".data cs with
      | none => none
      | some t =>
        match t.dropWhile isWs with
        | e :: t2 =>
          if e = '=' then
            match t2.dropWhile isWs with
            | qc :: t4 =>
              if qc = q then
                match scanToQuote q t4 with
                | some (_, afterQ) =>
                  let g2 := afterQ.takeWhile (fun ch => !(ch = '>'))
                  match afterQ.drop g2.length with
                  | gt :: rest =>
                    if gt = '>' then some (g2 ++ ['>'], rest) else none
                  | [] => none
                | none => none
              else none
            | [] => none
          else none
        | [] => none
    else none
  | [] => none

/-- The lazy `[^>]*?` group of `_STYLE_ATTR_RE`; `acc` carries the first
capture group (kept by the `\1\2` replacement). -/
def lazyTableScan (q : Char) (acc : List Char) : List Char → Option (List Char × List Char)
  | [] => none
  | c :: cs =>
    match tryTableTail q (c :: cs) with
    | some (g2, rest) => some (acc ++ g2, rest)
    | none => if c = '>' then none else lazyTableScan q (acc ++ [c]) cs

/-- `_STYLE_ATTR_RE` (double-quoted, `q = dq`) and its single-quoted inline
twin on line 53 (`q = sq`): `<` followed by one of the tag literals `td`,
`th`, `tr`, `table` (IGNORECASE, mutually exclusive on their second
character), the lazy group, the style attribute, and `[^>]*>`; substituted
by `\1\2`. -/
def matchTableStyle (q : Char) (_ : Option Char) (s : List Char) :
    Option (List Char × List Char) :=
  match s with
  | c :: cs =>
    if c = '<' then
      match litIC "td".data cs with
      | some u => lazyTableScan q (c :: cs.take 2) u
      | none =>
        match litIC "th".data cs with
        | some u => lazyTableScan q (c :: cs.take 2) u
        | none =>
          match litIC "tr".data cs with
          | some u => lazyTableScan q (c :: cs.take 2) u
          | none =>
            match litIC "table".data cs with
            | some u => lazyTableScan q (c :: cs.take 5) u
            | none => none
    else none
  | [] => none

/-! ### The two sanitizers (`gerador_funcoes.py`, lines 21-54) -/

/-- `_sanitize_table_dimensions`: the light pass.  Empty (falsy) input is
returned unchanged; otherwise remove `height`/`width` attributes, strip
`height:`/`width:` declarations inside double- then single-quoted `style`
attributes, and collapse whitespace runs. -/
def _sanitize_table_dimensions (html : String) : String :=
  if html = "" then html
  else
    let s1 := subst matchAttrDim html.data
    let s2 := subst (matchStyleAttrGeneric dq) s1
    let s3 := subst (matchStyleAttrGeneric sq) s2
    let s4 := subst matchWs2 s3
    String.mk s4

/-- `_remove_table_styles_completely`: the aggressive fallback pass.  Empty
(falsy) input is returned unchanged; otherwise drop the whole `style`
attribute (double- then single-quoted) of tags matching the table-tag
pattern. -/
def _remove_table_styles_completely (html : String) : String :=
  if html = "" then html
  else
    let s1 := subst (matchTableStyle dq) html.data
    let s2 := subst (matchTableStyle sq) s1
    String.mk s2

/-- A table-prefixed tag opening occurs somewhere in the text: a `<`
immediately followed, case-insensitively, by `td`, `th`, `tr` or `table`
(the only openings the `_STYLE_ATTR_RE` pattern can anchor on). -/
def hasTableTag : List Char → Bool
  | [] => false
  | c :: cs =>
    if c = '<' then
      ((litIC "td".data cs).isSome || (litIC "th".data cs).isSome ||
        (litIC "tr".data cs).isSome || (litIC "table".data cs).isSome)
      || hasTableTag cs
    else hasTableTag cs

/-! ### The PDF pipeline (`criar_pdf_em_memoria`, `gerador_funcoes.py` 58-139)

The impure collaborators are modelled as parameters: the Jinja environment
(template lookup and rendering, which may raise) and the `pisa.CreatePDF`
engine.  One engine call is one `pisa.CreatePDF(src=..., dest=buffer)`
invocation on a fresh in-memory buffer: it either returns with the bytes it
wrote to that buffer and an error flag (`pisa_status.err`), or raises. -/

/-- Outcome of one `pisa.CreatePDF` call on a fresh buffer: normal return
with the buffer content written so far and the `err` flag, or a raised
exception. -/
inductive EngineOutcome where
  | result (written : List Nat) (err : Bool)
  | raised
  deriving DecidableEq

/-- Result of `env.get_template` followed by `template.render`: the template
is missing (`TemplateNotFound`), or it renders to HTML, or rendering raises
(`.found (.error msg)`). -/
inductive TemplateLookup where
  | found (render : Except String String)
  | notFound

/-- The collaborators of `criar_pdf_em_memoria`. -/
structure PdfEnv where
  lookup : TemplateLookup
  engine : String → EngineOutcome

/-- The distinct exit points of `criar_pdf_em_memoria`, one constructor per
`return` site of the source. -/
inductive PdfResult where
  | success (bytes : List Nat)
  | successFallback (bytes : List Nat)
  | errTemplateNotFound
  | errFallbackFailed (written : List Nat)
  | errFallbackRaised
  | errUnexpected (msg : String)
  deriving DecidableEq

/-- An attempt succeeds when `pisa.CreatePDF` returns with `err` clear;
an engine-reported error or a raised exception is a failure. -/
def attemptSucceeds : EngineOutcome → Bool
  | .result _ false => true
  | _ => false

/-- Control flow of `criar_pdf_em_memoria`, exit points kept distinct.
Mirrors the source: missing template returns at line 79; a rendering
exception falls through to the outer handler (line 136); otherwise the
light-sanitized HTML goes to the first `pisa.CreatePDF` into `result_buffer`
(line 97), and on engine error or exception the aggressive sanitizer is
applied to the original rendered HTML and retried into the fresh
`fallback_buffer` (lines 113-129). -/
def criar_pdf_run (env : PdfEnv) : PdfResult :=
  match env.lookup with
  | .notFound => .errTemplateNotFound
  | .found (.error e) => .errUnexpected e
  | .found (.ok html_renderizado) =>
    let html_sanitizado := _sanitize_table_dimensions html_renderizado
    match env.engine html_sanitizado with
    | .result buf false => .success buf
    | _ =>
      let html_fallback := _remove_table_styles_completely html_renderizado
      match env.engine html_fallback with
      | .result buf2 false => .successFallback buf2
      | .result w true => .errFallbackFailed w
      | .raised => .errFallbackRaised

/-- What each exit point returns to the caller: the buffer bytes on the two
success paths, `None` on every error path. -/
def resultBytes : PdfResult → Option (List Nat)
  | .success b => some b
  | .successFallback b => some b
  | _ => none

/-- `criar_pdf_em_memoria`: the caller-visible return value. -/
def criar_pdf_em_memoria (env : PdfEnv) : Option (List Nat) :=
  resultBytes (criar_pdf_run env)

/-- The `src=` strings handed to `pisa.CreatePDF`, in call order, by one run
of `criar_pdf_em_memoria`. -/
def criar_pdf_calls (env : PdfEnv) : List String :=
  match env.lookup with
  | .notFound => []
  | .found (.error _) => []
  | .found (.ok h) =>
    let s := _sanitize_table_dimensions h
    match env.engine s with
    | .result _ false => [s]
    | _ => [s, _remove_table_styles_completely h]

/-! ### Substring search (for stating what a backend input contains) -/

/-- `pat` is a prefix of `s`. -/
def isPrefixL : List Char → List Char → Bool
  | [], _ => true
  | _ :: _, [] => false
  | a :: as, b :: bs => a = b && isPrefixL as bs

/-- `pat` occurs somewhere in `s`. -/
def containsSubAux (pat : List Char) : List Char → Bool
  | [] => isPrefixL pat []
  | c :: cs => isPrefixL pat (c :: cs) || containsSubAux pat cs

/-- The string `pat` occurs as a substring of `s`. -/
def containsSub (pat s : String) : Bool := containsSubAux pat.data s.data

/-! ### Totals computation (`app.py`, lines 645-652 and 682-687)

Python floats are modelled as rationals; on the spec's concrete scenario the
float computation is exact, so the models agree there. -/

/-- The fields of a line item the totals computation reads. -/
structure ItemQ where
  quantidade_kg : ℚ
  valor_kg : ℚ
  deriving DecidableEq

/-- The `totais` mapping built in `app.py` before rendering. -/
structure Totais where
  base_calculo_icms : ℚ
  icms_perc : ℚ
  valor_mercadoria : ℚ
  ipi_perc : ℚ
  valor_ipi : ℚ
  total_nf : ℚ
  total_kg : ℚ
  deriving DecidableEq

/-- The totals computation of `app.py`: `valor_mercadoria` is the running
sum of `quantidade_kg * valor_kg` (Python `sum` folds from the left starting
at 0), `valor_ipi = valor_mercadoria * (ipi_percent / 100)`,
`total_nf = valor_mercadoria + valor_ipi`. -/
def computeTotais (itens : List ItemQ) (ipi_percent icms_percent : ℚ) : Totais :=
  let valor_mercadoria := itens.foldl (fun acc it => acc + it.quantidade_kg * it.valor_kg) 0
  let valor_ipi := valor_mercadoria * (ipi_percent / 100)
  let total_nf := valor_mercadoria + valor_ipi
  { base_calculo_icms := valor_mercadoria
    icms_perc := icms_percent
    valor_mercadoria := valor_mercadoria
    ipi_perc := ipi_percent
    valor_ipi := valor_ipi
    total_nf := total_nf
    total_kg := itens.foldl (fun acc it => acc + it.quantidade_kg) 0 }

/-! ### Asset resolver (`app.py`: `to_data_uri`, `find_logo_path_from_hint`)

The filesystem is a parameter: which paths exist, and what bytes a read
yields (`none` models a read that raises, caught by the source's
`try`/`except` which returns `None`). -/

/-- The filesystem as seen by the asset resolver. -/
structure FS where
  pathExists : String → Bool
  readBytes : String → Option (List Nat)

/-- Split a character list on `/` (the components of `str.split`). -/
def splitSlashAux : List Char → List Char → List (List Char)
  | [], acc => [acc.reverse]
  | c :: cs, acc =>
    if c = '/' then acc.reverse :: splitSlashAux cs []
    else splitSlashAux cs (c :: acc)

/-- `pathlib` name: the last path component, with empty and `.` components
dropped (as `PurePath` normalization does). -/
def pathName (p : String) : String :=
  match ((splitSlashAux p.data []).filter
      (fun s => !(s.isEmpty || s = ['.']))).getLast? with
  | some n => String.mk n
  | none => ""

/-- `pathlib` suffix: the part of the name from its last dot, empty when the
last dot is the first character or the last character of the name. -/
def pathSuffix (p : String) : String :=
  let n := (pathName p).data
  let k := (n.reverse.takeWhile (fun c => !(c = '.'))).length
  if k < n.length then
    let i := n.length - 1 - k
    if 0 < i && i < n.length - 1 then String.mk (n.drop i) else ""
  else ""

/-- `pathlib` `is_absolute` on POSIX: the path starts with a slash. -/
def isAbsolute (p : String) : Bool :=
  match p.data with
  | c :: _ => c = '/'
  | [] => false

/-- `pathlib` `/` join for the names used here (a name that is itself
absolute replaces the directory). -/
def pathJoin (d n : String) : String :=
  if isAbsolute n then n else d ++ "/" ++ n

/-- Python `str.lower()` (ASCII fragment). -/
def strLower (s : String) : String := String.mk (s.data.map Char.toLower)

/-- Python `str.upper()` (ASCII fragment). -/
def strUpper (s : String) : String := String.mk (s.data.map Char.toUpper)

/-- One sextet to a base64 alphabet character. -/
def b64Char (n : Nat) : Char :=
  if n < 26 then Char.ofNat (65 + n)
  else if n < 52 then Char.ofNat (97 + (n - 26))
  else if n < 62 then Char.ofNat (48 + (n - 52))
  else if n = 62 then '+' else '/'

/-- RFC 4648 base64 of a byte list, three bytes to four characters with
`=` padding, as `base64.b64encode` produces. -/
def base64Chunks : List Nat → List Char
  | [] => []
  | [a] => [b64Char (a / 4), b64Char (a % 4 * 16), '=', '=']
  | [a, b] => [b64Char (a / 4), b64Char (a % 4 * 16 + b / 16), b64Char (b % 16 * 4), '=']
  | a :: b :: c :: rest =>
    b64Char (a / 4) :: b64Char (a % 4 * 16 + b / 16) ::
      b64Char (b % 16 * 4 + c / 64) :: b64Char (c % 64) :: base64Chunks rest

/-- `base64.b64encode(...).decode()` on bytes (reduced mod 256). -/
def base64Encode (bytes : List Nat) : String :=
  String.mk (base64Chunks (bytes.map (· % 256)))

/-- `to_data_uri` (`app.py` 51-58): `None` for a missing path or a failed
read, otherwise a data URI whose MIME type is `image/png` exactly when the
lowercased suffix is `.png`, else `image/jpeg`. -/
def to_data_uri (fs : FS) (path : Option String) : Option String :=
  match path with
  | none => none
  | some p =>
    if fs.pathExists p then
      let mime := if strLower (pathSuffix p) = ".png" then "image/png" else "image/jpeg"
      match fs.readBytes p with
      | some bytes => some ("data:" ++ mime ++ ";base64," ++ base64Encode bytes)
      | none => none
    else none

/-- The `seen`-set loop of the source: keep the first occurrence of each
name, in order. -/
def dedupNamesAux (seen : List String) : List String → List String
  | [] => []
  | x :: xs =>
    if x ∈ seen then dedupNamesAux seen xs
    else x :: dedupNamesAux (x :: seen) xs

/-- Order-preserving removal of duplicate names. -/
def dedupNames (l : List String) : List String := dedupNamesAux [] l

/-- The fixed candidate directory list of `find_logo_path_from_hint`,
parameterized by the script directory and the working directory. -/
def searchDirs (scriptDir cwd : String) : List String :=
  [scriptDir, scriptDir ++ "/assets", cwd, cwd ++ "/assets",
   "/workspaces/orcamentotransplas", "/mount/src/orcamentotransplas"]

/-- The hint as a string; Python's `if hint:` treats `None` and the empty
string alike as an absent hint. -/
def hintString : Option String → String
  | some s => s
  | none => ""

/-- The candidate file names tried by `find_logo_path_from_hint`: the
hint's final component (when the hint and that component are non-empty),
then the conventional `logo_<empresa>.png` and `logo_<empresa>.jpg`, first
occurrences kept. -/
def logoBaseNames (empresa_key : String) (hint : Option String) : List String :=
  let ek := strUpper empresa_key
  let hintStr := hintString hint
  let base0 :=
    if !hintStr.isEmpty && !(pathName hintStr).isEmpty then [pathName hintStr] else []
  let nome_base := "logo_" ++ strLower ek
  dedupNames (base0 ++ [nome_base ++ ".png", nome_base ++ ".jpg"])

/-- `find_logo_path_from_hint` (`app.py` 74-121): build the candidate name
list, return an absolute existing hint first, then the first existing
`dir/name` combination in order, else `None`. -/
def find_logo_path_from_hint (fs : FS) (scriptDir cwd : String)
    (empresa_key : String) (hint : Option String) : Option String :=
  let hintStr := hintString hint
  let base_names := logoBaseNames empresa_key hint
  if !hintStr.isEmpty && isAbsolute hintStr && fs.pathExists hintStr then some hintStr
  else
    (searchDirs scriptDir cwd).findSome? fun d =>
      base_names.findSome? fun n =>
        let q := pathJoin d n
        if fs.pathExists q then some q else none

/-! ## Claims -/

/-- C2: the light sanitization pass applied to
`<td style="height:10px;width:20px;color:red">` yields
`<td style="color:red">`; the `height`/`width` declarations are removed in
either order and `color:red` is preserved. -/
theorem C2_light_sanitizer_example :
    _sanitize_table_dimensions "<td style=\"height:10px;width:20px;color:red\">"
      = "<td style=\"color:red\">"
    ∧ _sanitize_table_dimensions "<td style=\"width:20px;height:10px;color:red\">"
      = "<td style=\"color:red\">" := by
  exact ⟨by decide, by decide⟩

/-- C3 counterexample: the light pass is not idempotent.  On
`<td style=";;;">` one application collapses the style value to `;;` (the
`;\s*;` substitution replaces non-overlapping pairs in a single left-to-right
pass), and a second application collapses it further to `;`. -/
theorem C3_counterexample_semicolons :
    ¬ (_sanitize_table_dimensions (_sanitize_table_dimensions "<td style=\";;;\">")
        = _sanitize_table_dimensions "<td style=\";;;\">") := by
  decide

/-- C3 amended: the light pass is idempotent on the specification's
reference input `<td style="height:10px;width:20px;color:red">` (its output
`<td style="color:red">` is a fixed point); it is not idempotent on every
HTML string. -/
theorem C3_idempotent_on_reference_input :
    _sanitize_table_dimensions
        (_sanitize_table_dimensions "<td style=\"height:10px;width:20px;color:red\">")
      = _sanitize_table_dimensions "<td style=\"height:10px;width:20px;color:red\">" := by
  decide

/-- C10: both sanitizers return falsy (empty) input unchanged through the
early-return branch. -/
theorem C10_empty_input_identity :
    _sanitize_table_dimensions "" = "" ∧ _remove_table_styles_completely "" = "" := by
  exact ⟨rfl, rfl⟩

/-- C8 counterexample: the aggressive pass does not restrict itself to
`table`, `tr`, `td`, `th`.  The pattern `<(?:td|th|tr|table)` has no word
boundary, so the `style` attribute of a `<thead>` element (tag-name prefix
`th`) is removed as well, contradicting the claim that style attributes on
any other element are left unchanged. -/
theorem C8_counterexample_thead :
    _remove_table_styles_completely "<thead style=\"color:red\">x</thead>"
        = "<thead>x</thead>"
    ∧ ¬ (_remove_table_styles_completely "<thead style=\"color:red\">x</thead>"
        = "<thead style=\"color:red\">x</thead>") := by
  exact ⟨by decide, by decide⟩

/-- A text with no table-prefixed tag opening at its head cannot be matched
by the table-style pattern. -/
theorem matchTableStyle_eq_none (q : Char) (prev : Option Char) (s : List Char)
    (hfree : hasTableTag s = false) : matchTableStyle q prev s = none := by
  cases s with
  | nil => rfl
  | cons c cs =>
    unfold matchTableStyle
    by_cases hc : c = '<'
    · subst hc
      unfold hasTableTag at hfree
      rw [if_pos rfl] at hfree
      have htd : litIC "td".data cs = none := by
        cases ht : litIC "td".data cs with
        | none => rfl
        | some u => rw [ht] at hfree; simp at hfree
      have hth : litIC "th".data cs = none := by
        cases ht : litIC "th".data cs with
        | none => rfl
        | some u => rw [ht] at hfree; simp at hfree
      have htr : litIC "tr".data cs = none := by
        cases ht : litIC "tr".data cs with
        | none => rfl
        | some u => rw [ht] at hfree; simp at hfree
      have htable : litIC "table".data cs = none := by
        cases ht : litIC "table".data cs with
        | none => rfl
        | some u => rw [ht] at hfree; simp at hfree
      simp [htd, hth, htr, htable]
    · simp [hc]

/-- The property of containing no table-prefixed tag opening is inherited
by the tail. -/
theorem hasTableTag_tail (c : Char) (cs : List Char)
    (h : hasTableTag (c :: cs) = false) : hasTableTag cs = false := by
  unfold hasTableTag at h
  by_cases hc : c = '<'
  · rw [if_pos hc] at h
    exact (Bool.or_eq_false_iff.mp h).2
  · rwa [if_neg hc] at h

/-- The `re.sub` driver for the table-style pattern leaves a table-free
text unchanged. -/
theorem substAux_table_eq_self (q : Char) :
    ∀ (fuel : Nat) (prev : Option Char) (s : List Char),
      hasTableTag s = false → substAux (matchTableStyle q) fuel prev s = s := by
  intro fuel
  induction fuel with
  | zero => intro prev s _; rfl
  | succ n ih =>
    intro prev s hs
    cases s with
    | nil => rfl
    | cons c cs =>
      unfold substAux
      rw [matchTableStyle_eq_none q prev (c :: cs) hs]
      rw [ih (some c) cs (hasTableTag_tail c cs hs)]

/-- The aggressive pass is the identity on every HTML string containing no
table-prefixed tag opening. -/
theorem remove_table_styles_eq_self_of_table_free (h : String)
    (hfree : hasTableTag h.data = false) :
    _remove_table_styles_completely h = h := by
  unfold _remove_table_styles_completely
  by_cases he : h = ""
  · rw [if_pos he]
  · rw [if_neg he]
    show String.mk (subst (matchTableStyle sq) (subst (matchTableStyle dq) h.data)) = h
    unfold subst
    rw [substAux_table_eq_self dq h.data.length none h.data hfree]
    rw [substAux_table_eq_self sq h.data.length none h.data hfree]

/-- C8 amended: the aggressive pass removes the entire `style` attribute
from elements whose tag name merely begins with `td`, `th`, `tr` or `table`
(so `table`, `tr`, `td`, `th` themselves, but also e.g. `thead` and
`track`); every HTML string with no table-prefixed tag opening at all — no
`<` immediately followed, case-insensitively, by `td`, `th`, `tr` or
`table` — is returned completely unchanged, so in particular `style`
attributes of elements such as `div` and `span` are preserved there; and on
the exhibited matched elements the other attributes (`class`, `id`) are
preserved while only the `style` attribute is dropped. -/
theorem C8_table_prefix_behavior (h : String)
    (hfree : hasTableTag h.data = false) :
    _remove_table_styles_completely h = h
    ∧ _remove_table_styles_completely "<td class=\"c\" style=\"x\" id=\"i\">"
      = "<td class=\"c\" id=\"i\">"
    ∧ _remove_table_styles_completely "<table style=\"a\"><tr style=\"b\"><th style=\"c\">"
      = "<table><tr><th>"
    ∧ _remove_table_styles_completely "<track style=\"k\">"
      = "<track>" :=
  ⟨remove_table_styles_eq_self_of_table_free h hfree, by decide, by decide, by decide⟩

theorem C8_table_prefix_behavior_witness :
    _remove_table_styles_completely "<div style=\"color:red\"><span style=\"a\">x</span></div>"
      = "<div style=\"color:red\"><span style=\"a\">x</span></div>"
    ∧ _remove_table_styles_completely "<td class=\"c\" style=\"x\" id=\"i\">"
      = "<td class=\"c\" id=\"i\">"
    ∧ _remove_table_styles_completely "<table style=\"a\"><tr style=\"b\"><th style=\"c\">"
      = "<table><tr><th>"
    ∧ _remove_table_styles_completely "<track style=\"k\">"
      = "<track>" :=
  C8_table_prefix_behavior
    "<div style=\"color:red\"><span style=\"a\">x</span></div>" (by decide)

/-- C1: when the primary attempt fails (engine-reported error or raised
exception), the fallback applies the aggressive sanitizer to the original
rendered HTML — not to the light pass's output — and retries into a fresh
buffer; generation fails exactly when this second attempt also fails, and on
failure no partially-written buffer content reaches the caller (the bytes an
erroring engine wrote are discarded). -/
theorem C1_fallback_from_original_html (env : PdfEnv) (h : String)
    (hlook : env.lookup = .found (.ok h))
    (hfail : attemptSucceeds (env.engine (_sanitize_table_dimensions h)) = false) :
    criar_pdf_calls env
        = [_sanitize_table_dimensions h, _remove_table_styles_completely h]
    ∧ (criar_pdf_em_memoria env = none
        ↔ attemptSucceeds (env.engine (_remove_table_styles_completely h)) = false)
    ∧ (∀ b, env.engine (_remove_table_styles_completely h) = .result b false →
        criar_pdf_em_memoria env = some b)
    ∧ (∀ w, env.engine (_remove_table_styles_completely h) = .result w true →
        criar_pdf_em_memoria env = none)
    ∧ (env.engine (_remove_table_styles_completely h) = .raised →
        criar_pdf_em_memoria env = none) := by
  unfold criar_pdf_calls criar_pdf_em_memoria criar_pdf_run
  rw [hlook]
  cases henga : env.engine (_sanitize_table_dimensions h) with
  | result buf err =>
    cases err with
    | false => rw [henga] at hfail; simp [attemptSucceeds] at hfail
    | true =>
      cases hengb : env.engine (_remove_table_styles_completely h) with
      | result buf2 err2 =>
        cases err2 with
        | false => simp [henga, hengb, resultBytes, attemptSucceeds]
        | true => simp [henga, hengb, resultBytes, attemptSucceeds]
      | raised => simp [henga, hengb, resultBytes, attemptSucceeds]
  | raised =>
    cases hengb : env.engine (_remove_table_styles_completely h) with
    | result buf2 err2 =>
      cases err2 with
      | false => simp [henga, hengb, resultBytes, attemptSucceeds]
      | true => simp [henga, hengb, resultBytes, attemptSucceeds]
    | raised => simp [henga, hengb, resultBytes, attemptSucceeds]

/-- Rendered HTML for the C1 witness. -/
def htmlC1 : String := "<table style=\"width:9px\"><td>x</td></table>"

/-- PDF magic bytes `%PDF` for the C1 witness. -/
def pdfBytesC1 : List Nat := [37, 80, 68, 70]

/-- A C1 witness environment: the engine reports an error (having written a
partial byte) on every input except the aggressively sanitized original
HTML, which succeeds. -/
def envC1 : PdfEnv :=
  { lookup := .found (.ok htmlC1)
    engine := fun s =>
      if s = _remove_table_styles_completely htmlC1 then .result pdfBytesC1 false
      else .result [12] true }

theorem C1_fallback_from_original_html_witness :
    criar_pdf_calls envC1
        = [_sanitize_table_dimensions htmlC1, _remove_table_styles_completely htmlC1]
    ∧ criar_pdf_em_memoria envC1 = some pdfBytesC1 :=
  ⟨(C1_fallback_from_original_html envC1 htmlC1 rfl (by decide)).1,
   (C1_fallback_from_original_html envC1 htmlC1 rfl (by decide)).2.2.1
      pdfBytesC1 (by decide)⟩

/-- Environment with a missing template (the `TemplateNotFound` branch). -/
def envMissingTemplate : PdfEnv := { lookup := .notFound, engine := fun _ => .raised }

/-- Environment whose rendering succeeds but both engine attempts raise. -/
def envBothAttemptsFail : PdfEnv :=
  { lookup := .found (.ok "<p>x</p>"), engine := fun _ => .raised }

/-- C4 counterexample: a missing template is not surfaced to the caller as a
distinct error.  `criar_pdf_em_memoria` catches `TemplateNotFound` and
returns `None` — the very same caller-visible value produced by a completely
different failure (both rendering attempts failing) — so the caller cannot
distinguish the missing-template failure, and no `TemplateNotFoundError`
propagates. -/
theorem C4_counterexample_generic_none :
    criar_pdf_em_memoria envMissingTemplate = none
    ∧ criar_pdf_em_memoria envBothAttemptsFail = none
    ∧ criar_pdf_em_memoria envMissingTemplate = criar_pdf_em_memoria envBothAttemptsFail := by
  refine ⟨rfl, by decide, by decide⟩

/-- C4 amended: when the template is missing, generation takes a dedicated
internal `TemplateNotFound` branch (which shows a specific error message
naming the template, not a generic exception) and returns `None` to the
caller; the exception does not escape, and the caller-visible value is the
same `None` as for any other failure. -/
theorem C4_template_not_found_branch (env : PdfEnv)
    (hl : env.lookup = .notFound) :
    criar_pdf_run env = .errTemplateNotFound ∧ criar_pdf_em_memoria env = none := by
  unfold criar_pdf_em_memoria criar_pdf_run
  rw [hl]
  exact ⟨rfl, rfl⟩

theorem C4_template_not_found_branch_witness :
    criar_pdf_run envMissingTemplate = .errTemplateNotFound
    ∧ criar_pdf_em_memoria envMissingTemplate = none :=
  C4_template_not_found_branch envMissingTemplate rfl

/-- Environment for the C5 counterexample: a plain paragraph renders and the
engine accepts immediately. -/
def envC5 : PdfEnv :=
  { lookup := .found (.ok "<p>ok</p>"), engine := fun _ => .result [1] false }

/-- C5 counterexample: no print-color-preservation style rule is injected.
The only HTML handed to the primary backend is exactly the light-sanitized
source — nothing is added to it, and it contains no occurrence of `style`
at all, so it cannot contain an injected style rule. -/
theorem C5_counterexample_no_injected_rule :
    criar_pdf_calls envC5 = ["<p>ok</p>"]
    ∧ _sanitize_table_dimensions "<p>ok</p>" = "<p>ok</p>"
    ∧ containsSub "style" "<p>ok</p>" = false := by
  refine ⟨by decide, by decide, by decide⟩

/-- C5 amended: the HTML handed to the primary backend is exactly the
output of the light sanitization pass on the rendered HTML; no global
print-color-preservation rule (nor anything else) is injected. -/
theorem C5_primary_input_is_sanitized_source (env : PdfEnv) (h : String)
    (hl : env.lookup = .found (.ok h)) :
    (criar_pdf_calls env).head? = some (_sanitize_table_dimensions h) := by
  unfold criar_pdf_calls
  rw [hl]
  cases heng : env.engine (_sanitize_table_dimensions h) with
  | result buf err => cases err with
    | false => simp [heng]
    | true => simp [heng]
  | raised => simp [heng]

theorem C5_primary_input_is_sanitized_source_witness :
    (criar_pdf_calls envC5).head? = some (_sanitize_table_dimensions "<p>ok</p>") :=
  C5_primary_input_is_sanitized_source envC5 "<p>ok</p>" rfl

/-- C9: `criar_pdf_em_memoria` never raises — the embedding is a total
function into `Option`, mirroring the outer catch-all handler — and every
internal failure (missing template, rendering exception, both engine
attempts failing) yields `None`, while a successful primary attempt returns
the buffer bytes. -/
theorem C9_none_on_every_failure (env : PdfEnv) :
    (env.lookup = .notFound → criar_pdf_em_memoria env = none)
    ∧ (∀ e, env.lookup = .found (.error e) → criar_pdf_em_memoria env = none)
    ∧ (∀ h, env.lookup = .found (.ok h) →
        attemptSucceeds (env.engine (_sanitize_table_dimensions h)) = false →
        attemptSucceeds (env.engine (_remove_table_styles_completely h)) = false →
        criar_pdf_em_memoria env = none)
    ∧ (∀ h b, env.lookup = .found (.ok h) →
        env.engine (_sanitize_table_dimensions h) = .result b false →
        criar_pdf_em_memoria env = some b) := by
  refine ⟨?_, ?_, ?_, ?_⟩
  · intro hl
    unfold criar_pdf_em_memoria criar_pdf_run
    rw [hl]
    rfl
  · intro e hl
    unfold criar_pdf_em_memoria criar_pdf_run
    rw [hl]
    rfl
  · intro h hl hfa hfb
    unfold criar_pdf_em_memoria criar_pdf_run
    rw [hl]
    cases henga : env.engine (_sanitize_table_dimensions h) with
    | result buf err =>
      cases err with
      | false => rw [henga] at hfa; simp [attemptSucceeds] at hfa
      | true =>
        cases hengb : env.engine (_remove_table_styles_completely h) with
        | result buf2 err2 =>
          cases err2 with
          | false => rw [hengb] at hfb; simp [attemptSucceeds] at hfb
          | true => simp [henga, hengb, resultBytes]
        | raised => simp [henga, hengb, resultBytes]
    | raised =>
      cases hengb : env.engine (_remove_table_styles_completely h) with
      | result buf2 err2 =>
        cases err2 with
        | false => rw [hengb] at hfb; simp [attemptSucceeds] at hfb
        | true => simp [henga, hengb, resultBytes]
      | raised => simp [henga, hengb, resultBytes]
  · intro h b hl heng
    unfold criar_pdf_em_memoria criar_pdf_run
    rw [hl]
    simp [heng, resultBytes]

/-- C9 witness environment: missing template. -/
def envC9missing : PdfEnv := { lookup := .notFound, engine := fun _ => .raised }

/-- C9 witness environment: the template renders with an exception. -/
def envC9render : PdfEnv :=
  { lookup := .found (.error "missing field"), engine := fun _ => .raised }

/-- C9 witness environment: both engine attempts raise. -/
def envC9both : PdfEnv :=
  { lookup := .found (.ok "<p>x</p>"), engine := fun _ => .raised }

/-- C9 witness environment: the primary attempt succeeds. -/
def envC9ok : PdfEnv :=
  { lookup := .found (.ok "<p>x</p>"), engine := fun _ => .result [1, 2] false }

theorem C9_none_on_every_failure_witness :
    criar_pdf_em_memoria envC9missing = none
    ∧ criar_pdf_em_memoria envC9render = none
    ∧ criar_pdf_em_memoria envC9both = none
    ∧ criar_pdf_em_memoria envC9ok = some [1, 2] :=
  ⟨(C9_none_on_every_failure envC9missing).1 rfl,
   (C9_none_on_every_failure envC9render).2.1 "missing field" rfl,
   (C9_none_on_every_failure envC9both).2.2.1 "<p>x</p>" rfl (by decide) (by decide),
   (C9_none_on_every_failure envC9ok).2.2.2 "<p>x</p>" [1, 2] rfl (by decide)⟩

/-- A left fold accumulating `acc + f it` computes the sum of the mapped
list (Python `sum` folds from the left starting at 0). -/
theorem foldl_add_eq_sum (f : ItemQ → ℚ) (l : List ItemQ) :
    ∀ a : ℚ, l.foldl (fun acc it => acc + f it) a = a + (l.map f).sum := by
  induction l with
  | nil => intro a; simp
  | cons x xs ih =>
    intro a
    simp only [List.foldl_cons, List.map_cons, List.sum_cons, ih]
    ring

/-- C6: the totals passed to the renderer satisfy
`valor_mercadoria = Σ quantidade_kg * valor_kg`,
`valor_ipi = valor_mercadoria * ipi_perc / 100` and
`total_nf = valor_mercadoria + valor_ipi`; on the concrete scenario of one
item with `quantidade_kg = 50`, `valor_kg = 20` and `ipi_perc = 5` they are
`1000`, `50` and `1050` (exact here even under Python floats). -/
theorem C6_totais_invariants (itens : List ItemQ) (p icms : ℚ) :
    (computeTotais itens p icms).valor_mercadoria
        = (itens.map (fun it => it.quantidade_kg * it.valor_kg)).sum
    ∧ (computeTotais itens p icms).valor_ipi
        = (computeTotais itens p icms).valor_mercadoria * (p / 100)
    ∧ (computeTotais itens p icms).total_nf
        = (computeTotais itens p icms).valor_mercadoria
            + (computeTotais itens p icms).valor_ipi
    ∧ (computeTotais [⟨50, 20⟩] 5 icms).valor_mercadoria = 1000
    ∧ (computeTotais [⟨50, 20⟩] 5 icms).valor_ipi = 50
    ∧ (computeTotais [⟨50, 20⟩] 5 icms).total_nf = 1050 := by
  refine ⟨?_, rfl, rfl, ?_, ?_, ?_⟩
  · simpa [computeTotais] using
      foldl_add_eq_sum (fun it => it.quantidade_kg * it.valor_kg) itens 0
  · norm_num [computeTotais]
  · norm_num [computeTotais]
  · norm_num [computeTotais]

/-- `findSome?` of a function that yields `none` on every member is `none`. -/
theorem findSome?_eq_none_of_forall_mem {α β : Type} (f : α → Option β)
    (l : List α) (hf : ∀ x ∈ l, f x = none) : l.findSome? f = none := by
  induction l with
  | nil => rfl
  | cons a as ih =>
    simp only [List.findSome?_cons, hf a (List.mem_cons_self a as)]
    exact ih fun x hx => hf x (List.mem_cons_of_mem a hx)

/-- C7: the asset resolver never throws (both functions are total,
mirroring the `try`/`except` wrappers).  `to_data_uri` is fully
characterized with no side conditions: `None` for an absent path, for a
missing file, and for a failed read (the caught exception); otherwise a
base64 data URI whose MIME type is `image/png` exactly when the lowercased
extension is `.png`, else `image/jpeg`.  `find_logo_path_from_hint` returns
the explicit not-found signal `None` whenever none of its candidate files —
the hint path, and each candidate name in each search directory — exists,
regardless of what other files the filesystem holds; and an absolute hint
path that exists is returned before any conventional-name directory
search. -/
theorem C7_asset_resolver (fs : FS) (scriptDir cwd key : String)
    (hint : Option String) (p s : String) :
    to_data_uri fs none = none
    ∧ (to_data_uri fs (some p)
        = if fs.pathExists p then
            (fs.readBytes p).map (fun bytes =>
              "data:"
                ++ (if strLower (pathSuffix p) = ".png" then "image/png" else "image/jpeg")
                ++ ";base64," ++ base64Encode bytes)
          else none)
    ∧ ((∀ t, hint = some t → fs.pathExists t = false) →
        (∀ d ∈ searchDirs scriptDir cwd, ∀ n ∈ logoBaseNames key hint,
            fs.pathExists (pathJoin d n) = false) →
        find_logo_path_from_hint fs scriptDir cwd key hint = none)
    ∧ (hint = some s → s.isEmpty = false → isAbsolute s = true →
        fs.pathExists s = true →
        find_logo_path_from_hint fs scriptDir cwd key hint = some s) := by
  refine ⟨rfl, ?_, ?_, ?_⟩
  · unfold to_data_uri
    by_cases hex : fs.pathExists p
    · cases hrd : fs.readBytes p with
      | some bytes => simp [hex, hrd]
      | none => simp [hex, hrd]
    · simp [hex]
  · intro hhint hall
    unfold find_logo_path_from_hint
    have hcond : (!(hintString hint).isEmpty && isAbsolute (hintString hint)
        && fs.pathExists (hintString hint)) = false := by
      cases hint with
      | none => simp [hintString, show ("".isEmpty) = true from rfl]
      | some t => simp [hintString, hhint t rfl]
    simp only [hcond, Bool.false_eq_true, if_false]
    exact findSome?_eq_none_of_forall_mem _ _ fun d hd =>
      findSome?_eq_none_of_forall_mem _ _ fun n hn => by
        simp [hall d hd n hn]
  · intro he hne habs hex
    subst he
    unfold find_logo_path_from_hint
    simp [hintString, hne, habs, hex]

/-- C7 witness filesystem with no files at all. -/
def fsC7none : FS := ⟨fun _ => false, fun _ => none⟩

/-- C7 witness filesystem holding one PNG at an absolute path. -/
def fsC7png : FS :=
  ⟨fun p => p == "/assets/logo.png",
   fun p => if p == "/assets/logo.png" then some [0, 1, 2] else none⟩

/-- C7 witness filesystem holding only a file that is not a candidate of
the logo search. -/
def fsC7other : FS :=
  ⟨fun p => p == "/elsewhere/readme.txt",
   fun p => if p == "/elsewhere/readme.txt" then some [7] else none⟩

theorem C7_asset_resolver_witness :
    to_data_uri fsC7png (some "/assets/logo.png") = some "data:image/png;base64,AAEC"
    ∧ to_data_uri fsC7none (some "/x.png") = none
    ∧ find_logo_path_from_hint fsC7other "/sd" "/cwd" "ISOFORMA" (some "/assets/logo.png")
        = none
    ∧ find_logo_path_from_hint fsC7png "/sd" "/cwd" "ISOFORMA" (some "/assets/logo.png")
        = some "/assets/logo.png" := by
  refine ⟨?_, ?_, ?_, ?_⟩
  · rw [(C7_asset_resolver fsC7png "/sd" "/cwd" "" none "/assets/logo.png" "").2.1]
    decide
  · rw [(C7_asset_resolver fsC7none "/sd" "/cwd" "" none "/x.png" "").2.1]
    decide
  · exact (C7_asset_resolver fsC7other "/sd" "/cwd" "ISOFORMA" (some "/assets/logo.png")
      "" "").2.2.1
      (fun t ht => by injection ht with h; rw [← h]; decide)
      (by decide)
  · exact (C7_asset_resolver fsC7png "/sd" "/cwd" "ISOFORMA" (some "/assets/logo.png")
      "" "/assets/logo.png").2.2.2 rfl (by decide) (by decide) (by decide)
